/-
Verification of the product-catalog query engine and natural-language search
bridge (backend/app/dynamodb_client.py and backend/app/bedrock_client.py).

The Python code is shallowly embedded: dynamic values coming back from the
store are modelled by the inductive `DVal` (DynamoDB hands numbers to Python
as `Decimal`; the client converts them to `float`), an item (Python dict) is
an association list of field name to value, and the paged store is modelled
by the list of pages its scan yields, in order, following the continuation
tokens.  Prices and sizes are modelled as rationals: the code only ever
compares them, and every comparison at stake is exact.
-/
import Mathlib

namespace Shop

/-- A dynamic (Python) value as it appears in a store item or an agent
payload: an arbitrary-precision `Decimal`, a `float`, an `int`, a string, a
boolean, or a list of values. -/
inductive DVal : Type where
  | decimal (q : ℚ)
  | float (q : ℚ)
  | int (n : ℤ)
  | str (s : String)
  | bool (b : Bool)
  | list (l : List DVal)

mutual
/-- Structural decidable equality for `DVal` (the derive handler does not
cope with the nested `List`). -/
def DVal.beq : DVal → DVal → Bool
  | .decimal a, .decimal b => a == b
  | .float a, .float b => a == b
  | .int a, .int b => a == b
  | .str a, .str b => a == b
  | .bool a, .bool b => a == b
  | .list a, .list b => DVal.beqList a b
  | _, _ => false

/-- Pointwise `DVal.beq` on lists. -/
def DVal.beqList : List DVal → List DVal → Bool
  | [], [] => true
  | a :: as, b :: bs => DVal.beq a b && DVal.beqList as bs
  | _, _ => false
end

mutual
theorem DVal.beq_iff : ∀ a b : DVal, DVal.beq a b = true ↔ a = b
  | .decimal a, b => by cases b <;> simp [DVal.beq]
  | .float a, b => by cases b <;> simp [DVal.beq]
  | .int a, b => by cases b <;> simp [DVal.beq]
  | .str a, b => by cases b <;> simp [DVal.beq]
  | .bool a, b => by cases b <;> simp [DVal.beq]
  | .list a, b => by
      cases b <;> simp [DVal.beq]
      exact DVal.beqList_iff a _

theorem DVal.beqList_iff : ∀ a b : List DVal, DVal.beqList a b = true ↔ a = b
  | [], [] => by simp [DVal.beqList]
  | [], _ :: _ => by simp [DVal.beqList]
  | _ :: _, [] => by simp [DVal.beqList]
  | a :: as, b :: bs => by
      simp [DVal.beqList, Bool.and_eq_true, DVal.beq_iff a b,
        DVal.beqList_iff as bs]
end

instance : DecidableEq DVal := fun a b =>
  decidable_of_iff (DVal.beq a b = true) (DVal.beq_iff a b)

/-- A store item / JSON object: a Python dict, as an association list. -/
abbrev Item : Type := List (String × DVal)

/-- `item[k]`: the value of field `k`, when present (dict keys are unique;
lookup takes the first binding). -/
def attrVal (it : Item) (k : String) : Option DVal :=
  (List.find? (fun kv => kv.1 = k) it).map (·.2)

/-- The numeric reading of a dynamic value (DynamoDB numbers carry no
float/decimal distinction). -/
def dvalNum : DVal → Option ℚ
  | .decimal q => some q
  | .float q => some q
  | .int n => some (n : ℚ)
  | _ => none

/-- Semantics of the DynamoDB condition `Attr(k).eq(v)`. -/
def attrEq (it : Item) (k : String) (v : DVal) : Bool :=
  decide (attrVal it k = some v)

/-- Semantics of the DynamoDB condition `Attr(k).contains(v)` for a numeric
`v` against a list-valued attribute. -/
def attrContains (it : Item) (k : String) (v : ℚ) : Bool :=
  match attrVal it k with
  | some (.list vs) => vs.any (fun d => decide (dvalNum d = some v))
  | _ => false

/-- Semantics of the DynamoDB condition `Attr(k).gte(v)`. -/
def attrNumGe (it : Item) (k : String) (v : ℚ) : Bool :=
  match (attrVal it k).bind dvalNum with
  | some q => decide (v ≤ q)
  | none => false

/-- Semantics of the DynamoDB condition `Attr(k).lte(v)`. -/
def attrNumLe (it : Item) (k : String) (v : ℚ) : Bool :=
  match (attrVal it k).bind dvalNum with
  | some q => decide (q ≤ v)
  | none => false

/-- The optional filter criteria of `get_products_by_filters`. -/
structure Criteria where
  type : Option String := none
  color : Option String := none
  size : Option ℚ := none
  price_min : Option ℚ := none
  price_max : Option ℚ := none

/-- `_convert_decimals` on a single value: a top-level `Decimal` becomes a
`float`; every other value — including a list, whatever it contains — is
kept as is (the Python loop does not recurse into containers). -/
def convertValue : DVal → DVal
  | .decimal q => .float q
  | v => v

/-- `_convert_decimals` on one item: rebuild the dict, converting each
top-level `Decimal` field. -/
def convertItem (it : Item) : Item :=
  List.map (fun kv => (kv.1, convertValue kv.2)) it

/-- `_convert_decimals`: convert every item of the batch. -/
def convert_decimals (items : List Item) : List Item :=
  items.map convertItem

/-- One `scan` round trip per page: the store applies the filter predicate
to each page and the loop follows `LastEvaluatedKey` until none remains,
extending `products` with each page's items. -/
def scanLoop (pred : Item → Bool) : List (List Item) → List Item
  | [] => []
  | page :: rest => page.filter pred ++ scanLoop pred rest

/-- The scan loop of `get_all_products` / `get_categories`: no filter
expression, accumulate every page. -/
def scanPages : List (List Item) → List Item
  | [] => []
  | page :: rest => page ++ scanPages rest

/-- `get_all_products` (live path): paged unfiltered scan, then
`_convert_decimals`. -/
def get_all_products (pages : List (List Item)) : List Item :=
  convert_decimals (scanPages pages)

/-- `filter_expression = filter_expression & new_cond` with the `None`
seeding of the Python chain: the first condition replaces `None`, later
ones are AND-ed on the right. -/
def addCond (fe : Option (Item → Bool)) (p : Item → Bool) : Option (Item → Bool) :=
  match fe with
  | none => some p
  | some q => some (fun it => q it && p it)

/-- The filter-expression build of `get_products_by_filters`, line by line:
`if type:` / `if color:` are Python truthiness tests (`None` and `""` are
falsy), `if size:` likewise (`None` and `0.0` are falsy), while the price
bounds are tested with `is not None`. -/
def buildFilterExpression (c : Criteria) : Option (Item → Bool) :=
  let fe : Option (Item → Bool) := none
  let fe := match c.type with
    | some t => if t = "" then fe else addCond fe (fun it => attrEq it "type" (.str t))
    | none => fe
  let fe := match c.color with
    | some col => if col = "" then fe else addCond fe (fun it => attrEq it "color" (.str col))
    | none => fe
  let fe := match c.size with
    | some s => if s = 0 then fe else addCond fe (fun it => attrContains it "sizes" s)
    | none => fe
  let fe := match c.price_min with
    | some m => addCond fe (fun it => attrNumGe it "price" m)
    | none => fe
  let fe := match c.price_max with
    | some m => addCond fe (fun it => attrNumLe it "price" m)
    | none => fe
  fe

/-- A scan applies the filter expression when one was built and no filter
otherwise. -/
def applyFE : Option (Item → Bool) → Item → Bool
  | none, _ => true
  | some f, it => f it

/-- `get_products_by_filters` (live path): build the filter expression,
run the paged scan with it, convert decimals. -/
def get_products_by_filters (pages : List (List Item)) (c : Criteria) : List Item :=
  convert_decimals (scanLoop (applyFE (buildFilterExpression c)) pages)

/-- `get_featured_products` (live path): paged scan filtered on
`Attr("featured").eq(True)`, then `_convert_decimals`. -/
def get_featured_products (pages : List (List Item)) : List Item :=
  convert_decimals (scanLoop (fun it => attrEq it "featured" (.bool true)) pages)

/-- The string read of a dynamic value, for `sorted(list(set(...)))` over
collected category values. -/
def allStrs : List DVal → Option (List String)
  | [] => some []
  | .str s :: rest => (allStrs rest).map (s :: ·)
  | _ :: _ => none

/-- `sorted(list(set(xs)))` for strings: deduplicate, sort ascending. -/
def sortedDedup (l : List String) : List String :=
  List.insertionSort (· ≤ ·) l.dedup

/-- `get_categories` (live path): full unfiltered paged scan; collect the
`type` and `color` field of every item that has one; deduplicate and sort
each collection.  Returns `none` when a collected value is not a string
(where the Python `set`/`sorted` machinery would raise instead of
returning). -/
def get_categories (pages : List (List Item)) : Option (List String × List String) :=
  let products := scanPages pages
  match allStrs (products.filterMap (fun it => attrVal it "type")),
        allStrs (products.filterMap (fun it => attrVal it "color")) with
  | some ts, some cs => some (sortedDedup ts, sortedDedup cs)
  | _, _ => none

/-- The hardcoded mock-mode answer of `get_categories`. -/
def get_categories_mock : List String × List String :=
  (["running", "casual", "formal", "athletic", "boots"],
   ["red", "blue", "black", "white", "brown"])

/-- A catalog product record as built by `_get_mock_products`. -/
structure Product where
  shoe_id : String
  name : String
  brand : String
  type : String
  color : String
  sizes : List ℚ
  price : ℚ
  image_url : String
  description : String
  featured : Bool
  rating : ℚ
  stock : Bool
deriving DecidableEq

/-- The first mock product (`mock-001`, 89.99 as the exact rational). -/
def mock001 : Product :=
  { shoe_id := "mock-001", name := "Mock Running Shoe", brand := "Nike",
    type := "running", color := "red", sizes := [9, 10, 11], price := Rat.divInt 8999 100,
    image_url := "https://example.com/shoe1.jpg",
    description := "Mock running shoe for testing", featured := true,
    rating := Rat.divInt 45 10, stock := true }

/-- The second mock product (`mock-002`). -/
def mock002 : Product :=
  { shoe_id := "mock-002", name := "Mock Casual Sneaker", brand := "Adidas",
    type := "casual", color := "blue", sizes := [8, 9, 10], price := Rat.divInt 755 10,
    image_url := "https://example.com/shoe2.jpg",
    description := "Mock casual sneaker for testing", featured := false,
    rating := Rat.divInt 43 10, stock := true }

/-- The third mock product (`mock-003`). -/
def mock003 : Product :=
  { shoe_id := "mock-003", name := "Mock Formal Shoe", brand := "Clarks",
    type := "formal", color := "black", sizes := [9, 10, 11, 12], price := 120,
    image_url := "https://example.com/shoe3.jpg",
    description := "Mock formal shoe for testing", featured := false,
    rating := Rat.divInt 47 10, stock := true }

/-- The fourth mock product (`mock-004`). -/
def mock004 : Product :=
  { shoe_id := "mock-004", name := "Mock Running Trainer", brand := "Nike",
    type := "running", color := "black", sizes := [9, 10, 11], price := 95,
    image_url := "https://example.com/shoe4.jpg",
    description := "Mock running trainer for testing", featured := true,
    rating := Rat.divInt 46 10, stock := true }

/-- The static mock dataset of `_get_mock_products`. -/
def mockProducts : List Product :=
  [mock001, mock002, mock003, mock004]

/-- `_get_mock_products`: the sequential filter chain over the static
dataset, with the same truthiness tests as the live filter build
(`if type:` / `if color:` / `if size:` versus `is not None` for the price
bounds). -/
def get_mock_products (c : Criteria) : List Product :=
  let fp := mockProducts
  let fp := match c.type with
    | some t => if t = "" then fp else fp.filter (fun p => p.type = t)
    | none => fp
  let fp := match c.color with
    | some col => if col = "" then fp else fp.filter (fun p => p.color = col)
    | none => fp
  let fp := match c.size with
    | some s => if s = 0 then fp else fp.filter (fun p => decide (s ∈ p.sizes))
    | none => fp
  let fp := match c.price_min with
    | some m => fp.filter (fun p => decide (m ≤ p.price))
    | none => fp
  let fp := match c.price_max with
    | some m => fp.filter (fun p => decide (p.price ≤ m))
    | none => fp
  fp

/-! ### The search bridge (`bedrock_client.py` and the `/api/search` route)

Python string primitives used by the bridge, embedded structurally over the
character list of a `String` (`str.strip`, `str.lower`, and the `in`
containment test; the queries and keywords at stake are ASCII, where these
agree with the Lean library functions). -/

/-- `str.strip()`: drop leading and trailing whitespace. -/
def pyStrip (s : String) : String :=
  String.mk (((s.data.dropWhile Char.isWhitespace).reverse.dropWhile
    Char.isWhitespace).reverse)

/-- `sub in l`: substring containment on character lists. -/
def strIn (sub : List Char) : List Char → Bool
  | [] => sub.isEmpty
  | c :: tl => List.isPrefixOf sub (c :: tl) || strIn sub tl

/-- `str.lower()`. -/
def pyLower (s : String) : String :=
  String.mk (s.data.map Char.toLower)

/-- `sub in s` on strings. -/
def pyContains (s sub : String) : Bool :=
  strIn sub.data s.data

/-- The outcome of `json.loads` on the text embedded in a trace/observation
envelope: a parsed product array, or a `JSONDecodeError`. -/
inductive PayloadParse : Type where
  | parsed (products : List Item)
  | malformed

/-- One event of the agent's completion stream.  `chunk` is the decoded
text of `event["chunk"]["bytes"]` when the event carries one;
`observationText` is present when the nested
`trace.trace.orchestrationTrace.observation.actionGroupInvocationOutput.text`
path exists, and carries the `json.loads` outcome for that text. -/
structure StreamEvent : Type where
  chunk : Option String := none
  observationText : Option PayloadParse := none

/-- The raw `invoke_agent` runtime response: the completion stream, plus
the out-of-band `sessionId` field of the response object (which the client
code never reads). -/
structure AgentRawResponse : Type where
  echoedSessionId : Option String := none
  completion : List StreamEvent

/-- A transport-level failure: the runtime invocation or the consumption
of its stream raised. -/
inductive TransportError : Type where
  | transportFailure

/-- The error raised by `invoke_agent` itself:
`ValueError("Query cannot be empty")`. -/
inductive AgentError : Type where
  | emptyQuery

/-- The dict returned by `invoke_agent`. -/
structure AgentResult : Type where
  agent_response : String
  products : List Item
  session_id : String
deriving DecidableEq

/-- `session_id or str(uuid.uuid4())`: the Python `or` falls through to a
fresh id when the supplied id is `None` — or falsy, i.e. `""`.  The fresh
uuid is abstracted as an argument. -/
def currentSessionId (sessionId : Option String) (freshId : String) : String :=
  match sessionId with
  | some s => if s = "" then freshId else s
  | none => freshId

/-- The running-themed mock product set of `_get_mock_response`. -/
def mockRunningProducts : List Item :=
  [[("shoe_id", .str "mock-run-1"), ("name", .str "Air Speed Runner"),
    ("brand", .str "Nike"), ("type", .str "running"), ("color", .str "red"),
    ("price", .float (Rat.divInt 8999 100)),
    ("sizes", .list [.int 8, .int 9, .int 10, .int 11]),
    ("image_url", .str "https://placehold.co/300x300?text=Nike+Runner"),
    ("description", .str "Fast and comfortable running shoes"),
    ("rating", .float (Rat.divInt 45 10))],
   [("shoe_id", .str "mock-run-2"), ("name", .str "Ultra Boost"),
    ("brand", .str "Adidas"), ("type", .str "running"), ("color", .str "black"),
    ("price", .float (Rat.divInt 12999 100)),
    ("sizes", .list [.int 9, .int 10, .int 11, .int 12]),
    ("image_url", .str "https://placehold.co/300x300?text=Adidas+Boost"),
    ("description", .str "Premium cushioned running shoes"),
    ("rating", .float (Rat.divInt 47 10))]]

/-- The formal-themed mock product set of `_get_mock_response`. -/
def mockFormalProducts : List Item :=
  [[("shoe_id", .str "mock-form-1"), ("name", .str "Oxford Classic"),
    ("brand", .str "Clarks"), ("type", .str "formal"), ("color", .str "black"),
    ("price", .float (Rat.divInt 14999 100)),
    ("sizes", .list [.int 9, .int 10, .int 11]),
    ("image_url", .str "https://placehold.co/300x300?text=Oxford"),
    ("description", .str "Classic formal oxford shoes"),
    ("rating", .float (Rat.divInt 46 10))]]

/-- The generic default mock product set of `_get_mock_response`. -/
def mockDefaultProducts : List Item :=
  [[("shoe_id", .str "mock-1"), ("name", .str "Casual Comfort"),
    ("brand", .str "Nike"), ("type", .str "casual"), ("color", .str "white"),
    ("price", .float (Rat.divInt 7999 100)),
    ("sizes", .list [.int 8, .int 9, .int 10, .int 11, .int 12]),
    ("image_url", .str "https://placehold.co/300x300?text=Casual"),
    ("description", .str "Everyday casual shoes"),
    ("rating", .float (Rat.divInt 43 10))],
   [("shoe_id", .str "mock-2"), ("name", .str "Street Style"),
    ("brand", .str "Puma"), ("type", .str "sneakers"), ("color", .str "gray"),
    ("price", .float (Rat.divInt 9999 100)),
    ("sizes", .list [.int 9, .int 10, .int 11]),
    ("image_url", .str "https://placehold.co/300x300?text=Puma"),
    ("description", .str "Trendy street sneakers"),
    ("rating", .float (Rat.divInt 44 10))]]

/-- `_get_mock_response`: keyword classification of the lowered query. -/
def getMockResponse (query : String) (sessionId : String) : AgentResult :=
  let queryLower := pyLower query
  if pyContains queryLower "running" then
    { agent_response :=
        "I found some great running shoes for you based on \x27" ++ query ++ "\x27.",
      products := mockRunningProducts, session_id := sessionId }
  else if pyContains queryLower "formal" || pyContains queryLower "wedding" ||
      pyContains queryLower "dress" then
    { agent_response := "Here are some formal options based on \x27" ++ query ++ "\x27.",
      products := mockFormalProducts, session_id := sessionId }
  else
    { agent_response :=
        "Here\x27s what I found for \x27" ++ query ++
          "\x27. Let me know if you\x27d like to narrow down by type, color, or price.",
      products := mockDefaultProducts, session_id := sessionId }

/-- One iteration of the stream loop of `invoke_agent`: append a chunk's
decoded bytes to the cumulative completion; when the trace/observation
path holds a payload that parses, *assign* it to `products` (a later valid
payload replaces an earlier one); a `JSONDecodeError` is swallowed. -/
def processEvent (acc : String × List Item) (e : StreamEvent) : String × List Item :=
  let completion := match e.chunk with
    | some s => acc.1 ++ s
    | none => acc.1
  let products := match e.observationText with
    | some (.parsed ps) => ps
    | some .malformed => acc.2
    | none => acc.2
  (completion, products)

/-- `invoke_agent`.  The boto3 round trip is abstracted as the `transport`
argument: `.error` when the invocation or the stream consumption raises
(the `except` arm), `.ok` with the raw response otherwise.  The generated
`uuid.uuid4()` is abstracted as `freshId`. -/
def invoke_agent (mockMode : Bool) (query : String) (sessionId : Option String)
    (freshId : String) (transport : Except TransportError AgentRawResponse) :
    Except AgentError AgentResult :=
  if pyStrip query = "" then .error .emptyQuery
  else
    let sid := currentSessionId sessionId freshId
    if mockMode then .ok (getMockResponse query sid)
    else
      match transport with
      | .error _ => .ok (getMockResponse query sid)
      | .ok resp =>
          let st := resp.completion.foldl processEvent ("", [])
          .ok { agent_response := st.1, products := st.2, session_id := sid }

/-- An HTTP error as raised by the `/api/search` route. -/
structure HTTPErr : Type where
  status : Nat
  detail : String
deriving DecidableEq

/-- The body returned by the `/api/search` route (the pydantic re-validation
of the product records is out of scope and modelled as the identity). -/
structure SearchResponse : Type where
  agent_response : String
  products : List Item
  session_id : String
deriving DecidableEq

/-- The `/api/search` route `search_products`: reject an empty or
whitespace-only query with a 400 before invoking the agent; map a
`ValueError` from `invoke_agent` to a 400. -/
def search_products (mockMode : Bool) (query : String) (sessionId : Option String)
    (freshId : String) (transport : Except TransportError AgentRawResponse) :
    Except HTTPErr SearchResponse :=
  if pyStrip query = "" then .error { status := 400, detail := "Query cannot be empty" }
  else
    match invoke_agent mockMode query sessionId freshId transport with
    | .error .emptyQuery => .error { status := 400, detail := "Query cannot be empty" }
    | .ok r =>
        .ok { agent_response := r.agent_response, products := r.products,
              session_id := r.session_id }

/-- The products component extracted by the stream loop, starting from the
empty accumulators of `invoke_agent`. -/
def extractedProducts (events : List StreamEvent) : List Item :=
  (events.foldl processEvent ("", [])).2

/-- The text component accumulated by the stream loop. -/
def extractedText (events : List StreamEvent) : String :=
  (events.foldl processEvent ("", [])).1

/-- The valid product payload carried by an event, if any. -/
def validPayload (e : StreamEvent) : Option (List Item) :=
  match e.observationText with
  | some (.parsed ps) => some ps
  | _ => none

/-! ### Concrete fixtures used by witnesses and counterexamples -/

/-- A one-field item used by paging fixtures. -/
def itemA : Item := [("shoe_id", DVal.str "1")]

/-- A second one-field item used by paging fixtures. -/
def itemB : Item := [("shoe_id", DVal.str "2")]

/-- A running-typed item used by filter fixtures. -/
def itemRun : Item := [("shoe_id", DVal.str "3"), ("type", DVal.str "running")]

/-- An item whose `sizes` list nests `Decimal` values, as every DynamoDB
item with a numeric-list attribute does. -/
def nestedItem : Item :=
  [("shoe_id", DVal.str "mock-1"),
   ("sizes", DVal.list [DVal.decimal 9, DVal.decimal 10]),
   ("price", DVal.decimal (Rat.divInt 9999 100))]

/-! ### Helper lemmas -/

theorem scanPages_eq_join (pages : List (List Item)) :
    scanPages pages = pages.flatten := by
  induction pages with
  | nil => rfl
  | cons page rest ih => simp [scanPages, ih]

theorem scanLoop_eq_filter_join (pred : Item → Bool) (pages : List (List Item)) :
    scanLoop pred pages = pages.flatten.filter pred := by
  induction pages with
  | nil => rfl
  | cons page rest ih => simp [scanLoop, ih, List.filter_append]

theorem scanLoop_true (pages : List (List Item)) :
    scanLoop (fun _ => true) pages = scanPages pages := by
  rw [scanLoop_eq_filter_join, scanPages_eq_join, List.filter_true]

/-! ### C4 — paging accumulates every page, independently of boundaries -/

/-- C4: a full-dataset retrieval follows the continuation cursor to the end
and returns exactly the (normalized) concatenation of all pages; two paged
stores with the same concatenation of pages give identical results for
`get_all_products` and for the scan loop of `get_products_by_filters`,
wherever the page boundaries fall. -/
theorem C4_paging_union (pages pages' : List (List Item)) (c : Criteria)
    (h : pages.flatten = pages'.flatten) :
    get_all_products pages = convert_decimals pages.flatten ∧
    get_products_by_filters pages c =
      convert_decimals (pages.flatten.filter (applyFE (buildFilterExpression c))) ∧
    get_all_products pages = get_all_products pages' ∧
    get_products_by_filters pages c = get_products_by_filters pages' c := by
  refine ⟨?_, ?_, ?_, ?_⟩
  · rw [get_all_products, scanPages_eq_join]
  · rw [get_products_by_filters, scanLoop_eq_filter_join]
  · rw [get_all_products, get_all_products, scanPages_eq_join, scanPages_eq_join, h]
  · rw [get_products_by_filters, get_products_by_filters, scanLoop_eq_filter_join,
      scanLoop_eq_filter_join, h]

/-- Witness for C4: a two-page fixture against the one-page fixture with
the same items. -/
theorem C4_paging_union_witness :
    ([[itemA], [itemB]] : List (List Item)).flatten = [[itemA, itemB]].flatten ∧
    get_all_products [[itemA], [itemB]] = get_all_products [[itemA, itemB]] :=
  ⟨rfl, (C4_paging_union [[itemA], [itemB]] [[itemA, itemB]] {} rfl).2.2.1⟩

/-! ### C5 — empty or whitespace-only queries are rejected up front -/

/-- C5: for every query that strips to the empty string, and every session
id, `invoke_agent` raises `ValueError` and the `/api/search` route answers
400 — whatever the transport would have answered, i.e. before any external
call. -/
theorem C5_empty_query_rejected (mockMode : Bool) (q : String)
    (sid : Option String) (fid : String)
    (tr : Except TransportError AgentRawResponse) (h : pyStrip q = "") :
    invoke_agent mockMode q sid fid tr = .error .emptyQuery ∧
    search_products mockMode q sid fid tr =
      .error { status := 400, detail := "Query cannot be empty" } := by
  constructor
  · rw [invoke_agent, if_pos h]
  · rw [search_products, if_pos h]

/-- Witness for C5 at the whitespace-only query of the spec's test
vector. -/
theorem C5_empty_query_rejected_witness :
    pyStrip "   " = "" ∧
    invoke_agent false "   " (some "S1") "fresh" (.error .transportFailure) =
      .error .emptyQuery :=
  ⟨by decide,
   (C5_empty_query_rejected false "   " (some "S1") "fresh"
     (.error .transportFailure) (by decide)).1⟩

/-! ### Helper lemmas for the search bridge -/

theorem getMockResponse_session_id (q s : String) :
    (getMockResponse q s).session_id = s := by
  simp only [getMockResponse]
  split
  · rfl
  · split <;> rfl

theorem prefixed_ne_empty (a q b : String) (ha : a.length ≠ 0) :
    a ++ q ++ b ≠ "" := by
  intro h
  have h2 := congrArg String.length h
  simp only [String.length_append] at h2
  rw [show String.length "" = 0 from rfl] at h2
  omega

theorem getMockResponse_populated (q s : String) :
    (getMockResponse q s).agent_response ≠ "" ∧
    (getMockResponse q s).products ≠ [] := by
  simp only [getMockResponse]
  constructor
  · split
    · exact prefixed_ne_empty _ q _ (by decide)
    · split
      · exact prefixed_ne_empty _ q _ (by decide)
      · exact prefixed_ne_empty _ q _ (by decide)
  · split
    · simp [mockRunningProducts]
    · split
      · simp [mockFormalProducts]
      · simp [mockDefaultProducts]

theorem invoke_agent_mock_eq (q : String) (sid : Option String) (fid : String)
    (tr : Except TransportError AgentRawResponse) (hq : pyStrip q ≠ "") :
    invoke_agent true q sid fid tr =
      .ok (getMockResponse q (currentSessionId sid fid)) := by
  unfold invoke_agent
  rw [if_neg hq]
  rfl

theorem invoke_agent_transport_error_eq (q : String) (sid : Option String)
    (fid : String) (e : TransportError) (hq : pyStrip q ≠ "") :
    invoke_agent false q sid fid (.error e) =
      .ok (getMockResponse q (currentSessionId sid fid)) := by
  unfold invoke_agent
  rw [if_neg hq]
  rfl

theorem invoke_agent_live_eq (q : String) (sid : Option String) (fid : String)
    (echo : Option String) (events : List StreamEvent) (hq : pyStrip q ≠ "") :
    invoke_agent false q sid fid (.ok { echoedSessionId := echo, completion := events }) =
      .ok { agent_response := extractedText events,
            products := extractedProducts events,
            session_id := currentSessionId sid fid } := by
  unfold invoke_agent
  rw [if_neg hq]
  rfl

theorem foldl_processEvent_inert (events : List StreamEvent)
    (hev : ∀ e ∈ events, e.chunk = none ∧ validPayload e = none) :
    ∀ acc, events.foldl processEvent acc = acc := by
  induction events with
  | nil => intro _; rfl
  | cons e tl ih =>
    intro acc
    obtain ⟨hc, hp⟩ := hev e (List.mem_cons_self e tl)
    have step : processEvent acc e = acc := by
      rcases hob : e.observationText with _ | pp
      · simp [processEvent, hc, hob]
      · cases pp
        · rw [validPayload, hob] at hp
          simp at hp
        · simp [processEvent, hc, hob]
    rw [List.foldl_cons, step]
    exact ih (fun e' he' => hev e' (List.mem_cons_of_mem e he')) acc

/-! ### C6 — transport failure falls back to a populated mock response -/

/-- C6: when the round trip to the agent fails at the transport level,
`invoke_agent` returns the deterministic mock response for the query and
invoked session id instead of propagating the failure, and that response
always carries non-empty text and a non-empty product list. -/
theorem C6_transport_fallback (q : String) (sid : Option String) (fid : String)
    (hq : pyStrip q ≠ "") :
    invoke_agent false q sid fid (.error .transportFailure) =
      .ok (getMockResponse q (currentSessionId sid fid)) ∧
    ∀ s, (getMockResponse q s).agent_response ≠ "" ∧
      (getMockResponse q s).products ≠ [] :=
  ⟨invoke_agent_transport_error_eq q sid fid .transportFailure hq,
   fun s => getMockResponse_populated q s⟩

/-- Witness for C6 on the spec's test vector `search("anything")`. -/
theorem C6_transport_fallback_witness :
    invoke_agent false "anything" none "fresh" (.error .transportFailure) =
      .ok (getMockResponse "anything" (currentSessionId none "fresh")) :=
  (C6_transport_fallback "anything" none "fresh" (by decide)).1

/-! ### C3 — a stream with no text and no valid payload -/

/-- C3 as stated is false: on a fragment stream yielding no text chunk and
no parseable product payload, `invoke_agent` does not fail — there is no
`BadAgentResponse` condition anywhere in the code — it returns a successful
result with empty text and an empty product list.  Concretely, for the
query `"shoes"` and a stream holding one single malformed fragment. -/
theorem C3_counterexample :
    invoke_agent false "shoes" none "fresh-id"
      (.ok { echoedSessionId := none,
             completion := [{ chunk := none, observationText := some .malformed }] }) =
      .ok { agent_response := "", products := [], session_id := "fresh-id" } := rfl

/-- C3 amended: for a non-empty query whose fragment stream yields no text
chunk and no fragment with a valid embedded product payload, `invoke_agent`
returns a successful result with empty text and empty products (it never
fails with a bad-response error). -/
theorem C3_empty_stream_returns_ok (q : String) (sid : Option String)
    (fid : String) (echo : Option String) (events : List StreamEvent)
    (hq : pyStrip q ≠ "")
    (hev : ∀ e ∈ events, e.chunk = none ∧ validPayload e = none) :
    invoke_agent false q sid fid
        (.ok { echoedSessionId := echo, completion := events }) =
      .ok { agent_response := "", products := [],
            session_id := currentSessionId sid fid } := by
  rw [invoke_agent_live_eq q sid fid echo events hq]
  rw [extractedText, extractedProducts, foldl_processEvent_inert events hev ("", [])]

/-- Witness for C3's amended statement: one malformed fragment, no chunk. -/
theorem C3_empty_stream_returns_ok_witness :
    invoke_agent false "boots" none "uuid-1"
        (.ok { echoedSessionId := none,
               completion := [{ chunk := none, observationText := some .malformed }] }) =
      .ok { agent_response := "", products := [],
            session_id := currentSessionId none "uuid-1" } :=
  C3_empty_stream_returns_ok "boots" none "uuid-1" none
    [{ chunk := none, observationText := some .malformed }]
    (by decide) (by decide)

/-! ### C9 — the result session id -/

/-- C9 as stated is false: the agent-echoed session id is never read; even
when the raw response carries one, the result's session id is the one used
to invoke. -/
theorem C9_counterexample :
    invoke_agent false "shoes" (some "S1") "fresh"
      (.ok { echoedSessionId := some "ECHO", completion := [] }) =
      .ok { agent_response := "", products := [], session_id := "S1" } ∧
    ("S1" : String) ≠ "ECHO" :=
  ⟨rfl, by decide⟩

/-- C9 amended: for every non-empty query, the result's session id always
equals the session id used to invoke — the caller-supplied one when it was
supplied (and non-empty), a freshly generated one otherwise; an
agent-echoed session id is ignored. -/
theorem C9_session_id (mockMode : Bool) (q : String) (sid : Option String)
    (fid : String) (tr : Except TransportError AgentRawResponse)
    (r : AgentResult) (hq : pyStrip q ≠ "")
    (hr : invoke_agent mockMode q sid fid tr = .ok r) :
    r.session_id = currentSessionId sid fid ∧
    (∀ s, s ≠ "" → currentSessionId (some s) fid = s) ∧
    currentSessionId none fid = fid := by
  refine ⟨?_, fun s hs => by rw [currentSessionId, if_neg hs], rfl⟩
  cases mockMode with
  | true =>
    rw [invoke_agent_mock_eq q sid fid tr hq] at hr
    cases hr
    exact getMockResponse_session_id q _
  | false =>
    cases tr with
    | error e =>
      rw [invoke_agent_transport_error_eq q sid fid e hq] at hr
      cases hr
      exact getMockResponse_session_id q _
    | ok resp =>
      rw [invoke_agent_live_eq q sid fid resp.echoedSessionId resp.completion hq] at hr
      cases hr
      rfl

/-- Witness for C9's amended statement: a caller-supplied session id "S1"
comes back unchanged. -/
theorem C9_session_id_witness :
    invoke_agent false "shoes" (some "S1") "fresh"
        (.ok { echoedSessionId := some "ECHO", completion := [] }) =
      .ok { agent_response := "", products := [], session_id := "S1" } ∧
    ({ agent_response := "", products := [], session_id := "S1" } :
        AgentResult).session_id = currentSessionId (some "S1") "fresh" :=
  ⟨rfl,
   (C9_session_id false "shoes" (some "S1") "fresh"
     (.ok { echoedSessionId := some "ECHO", completion := [] })
     { agent_response := "", products := [], session_id := "S1" }
     (by decide) rfl).1⟩

/-! ### C8 — order and the extracted products -/

/-- The text a fragment contributes to the cumulative completion. -/
def chunkText (e : StreamEvent) : String :=
  match e.chunk with
  | some s => s
  | none => ""

/-- The in-order concatenation of every fragment's text contribution. -/
def textConcat : List StreamEvent → String
  | [] => ""
  | e :: tl => chunkText e ++ textConcat tl

theorem processEvent_fst (acc : String × List Item) (e : StreamEvent) :
    (processEvent acc e).1 = acc.1 ++ chunkText e := by
  cases h : e.chunk <;> simp [processEvent, chunkText, h]

theorem processEvent_snd (acc : String × List Item) (e : StreamEvent) :
    (processEvent acc e).2 = (validPayload e).getD acc.2 := by
  rcases h : e.observationText with _ | pp
  · simp [processEvent, validPayload, h]
  · cases pp <;> simp [processEvent, validPayload, h]

theorem foldl_processEvent_fst (events : List StreamEvent) :
    ∀ acc, (events.foldl processEvent acc).1 = acc.1 ++ textConcat events := by
  induction events with
  | nil => intro acc; simp [textConcat]
  | cons e tl ih =>
    intro acc
    rw [List.foldl_cons, ih (processEvent acc e), processEvent_fst, textConcat,
      String.append_assoc]

theorem getLast?_cons_getD {α : Type} (v : α) (l : List α) (d : α) :
    ((v :: l).getLast?).getD d = (l.getLast?).getD v := by
  cases l with
  | nil => rfl
  | cons b l' =>
    rw [List.getLast?_cons_cons]
    cases h : (b :: l').getLast? with
    | none => exact absurd (List.getLast?_eq_none_iff.mp h) (by simp)
    | some x => rfl

theorem foldl_processEvent_snd (events : List StreamEvent) :
    ∀ acc, (events.foldl processEvent acc).2 =
      ((events.filterMap validPayload).getLast?).getD acc.2 := by
  induction events with
  | nil => intro acc; rfl
  | cons e tl ih =>
    intro acc
    rw [List.foldl_cons, ih (processEvent acc e), processEvent_snd]
    cases hv : validPayload e with
    | none => rw [List.filterMap_cons_none hv, Option.getD_none]
    | some v => rw [List.filterMap_cons_some hv, Option.getD_some, getLast?_cons_getD]

theorem length_filterMap_eq_countP {α β : Type} (f : α → Option β) (l : List α) :
    (l.filterMap f).length = l.countP (fun a => (f a).isSome) := by
  induction l with
  | nil => rfl
  | cons a tl ih =>
    cases h : f a with
    | none => rw [List.filterMap_cons_none h, List.countP_cons]; simp [h, ih]
    | some b => rw [List.filterMap_cons_some h, List.countP_cons]; simp [h, ih]

/-- Fragments carrying distinct valid payloads, used to refute order
independence. -/
def evA : StreamEvent := { chunk := none, observationText := some (.parsed [itemA]) }

/-- The second such fragment. -/
def evB : StreamEvent := { chunk := none, observationText := some (.parsed [itemB]) }

/-- C8 as stated is false: two streams that are permutations of each other
— two fragments each carrying a valid product payload, swapped — extract
different product lists, because the extraction keeps the payload of the
*last* valid fragment; position does matter. -/
theorem C8_counterexample :
    ([evA, evB] : List StreamEvent).Perm [evB, evA] ∧
    extractedProducts [evA, evB] ≠ extractedProducts [evB, evA] :=
  ⟨List.Perm.swap evB evA [], by decide⟩

/-- C8 amended: the extracted products are exactly the payload of the last
fragment with a valid embedded product array (empty when there is none); so
extraction is invariant under permutation of the fragments only when at
most one fragment carries a valid payload — while text concatenation is
order-preserving (the in-order concatenation of the chunks). -/
theorem C8_extraction_order (events events' : List StreamEvent)
    (hperm : events.Perm events')
    (hcount : events.countP (fun e => (validPayload e).isSome) ≤ 1) :
    extractedProducts events = ((events.filterMap validPayload).getLast?).getD [] ∧
    extractedProducts events = extractedProducts events' ∧
    extractedText events = textConcat events := by
  have h1 : ∀ evs : List StreamEvent,
      extractedProducts evs = ((evs.filterMap validPayload).getLast?).getD [] :=
    fun evs => foldl_processEvent_snd evs ("", [])
  refine ⟨h1 events, ?_, by
    rw [extractedText, foldl_processEvent_fst events ("", [])]; simp⟩
  rw [h1 events, h1 events']
  have hfm := hperm.filterMap validPayload
  have hlen : (events.filterMap validPayload).length ≤ 1 := by
    rw [length_filterMap_eq_countP]; exact hcount
  rcases hfl : events.filterMap validPayload with _ | ⟨v, _ | ⟨w, l⟩⟩
  · rw [hfl] at hfm
    rw [(hfm.symm.eq_nil : events'.filterMap validPayload = [])]
  · rw [hfl] at hfm
    rw [(List.perm_singleton.mp hfm.symm : events'.filterMap validPayload = [v])]
  · rw [hfl] at hlen
    simp at hlen


/-- Witness for C8's amended statement, on a one-valid-payload stream. -/
theorem C8_extraction_order_witness :
    (([evA] : List StreamEvent).countP (fun e => (validPayload e).isSome) ≤ 1) ∧
    extractedProducts [evA] = (([evA].filterMap validPayload).getLast?).getD [] :=
  ⟨by decide,
   (C8_extraction_order [evA] [evA] (List.Perm.refl [evA]) (by decide)).1⟩

/-! ### The per-criterion conditions actually applied by the filter build -/

/-- The type condition the live filter build applies (`true` when the
criterion is absent or falsy). -/
def condType (c : Criteria) (it : Item) : Bool :=
  match c.type with
  | some t => if t = "" then true else attrEq it "type" (.str t)
  | none => true

/-- The color condition the live filter build applies. -/
def condColor (c : Criteria) (it : Item) : Bool :=
  match c.color with
  | some col => if col = "" then true else attrEq it "color" (.str col)
  | none => true

/-- The size condition the live filter build applies. -/
def condSize (c : Criteria) (it : Item) : Bool :=
  match c.size with
  | some s => if s = 0 then true else attrContains it "sizes" s
  | none => true

/-- The lower price bound the live filter build applies. -/
def condMin (c : Criteria) (it : Item) : Bool :=
  match c.price_min with
  | some m => attrNumGe it "price" m
  | none => true

/-- The upper price bound the live filter build applies. -/
def condMax (c : Criteria) (it : Item) : Bool :=
  match c.price_max with
  | some m => attrNumLe it "price" m
  | none => true

/-- The type condition the mock filter chain applies. -/
def mcondType (c : Criteria) (p : Product) : Bool :=
  match c.type with
  | some t => if t = "" then true else decide (p.type = t)
  | none => true

/-- The color condition the mock filter chain applies. -/
def mcondColor (c : Criteria) (p : Product) : Bool :=
  match c.color with
  | some col => if col = "" then true else decide (p.color = col)
  | none => true

/-- The size condition the mock filter chain applies. -/
def mcondSize (c : Criteria) (p : Product) : Bool :=
  match c.size with
  | some s => if s = 0 then true else decide (s ∈ p.sizes)
  | none => true

/-- The lower price bound the mock filter chain applies. -/
def mcondMin (c : Criteria) (p : Product) : Bool :=
  match c.price_min with
  | some m => decide (m ≤ p.price)
  | none => true

/-- The upper price bound the mock filter chain applies. -/
def mcondMax (c : Criteria) (p : Product) : Bool :=
  match c.price_max with
  | some m => decide (p.price ≤ m)
  | none => true

theorem applyFE_addCond (fe : Option (Item → Bool)) (p : Item → Bool) (it : Item) :
    applyFE (addCond fe p) it = (applyFE fe it && p it) := by
  cases fe <;> rfl

theorem applyFE_none (it : Item) : applyFE none it = true := rfl

theorem applyFE_some (f : Item → Bool) (it : Item) : applyFE (some f) it = f it := rfl

theorem applyFE_build (c : Criteria) (it : Item) :
    applyFE (buildFilterExpression c) it =
      (condType c it && condColor c it && condSize c it &&
        condMin c it && condMax c it) := by
  obtain ⟨t, col, s, mn, mx⟩ := c
  cases t <;> cases col <;> cases s <;> cases mn <;> cases mx <;>
    simp only [buildFilterExpression, condType, condColor, condSize, condMin,
      condMax] <;>
    (try split_ifs) <;>
    simp [applyFE_addCond, applyFE_none, applyFE_some]

theorem buildFilter_sound (c : Criteria) (it : Item)
    (h : applyFE (buildFilterExpression c) it = true) :
    condType c it = true ∧ condColor c it = true ∧ condSize c it = true ∧
    condMin c it = true ∧ condMax c it = true := by
  rw [applyFE_build] at h
  simp only [Bool.and_eq_true] at h
  tauto

theorem mock_filter_sound (c : Criteria) (p : Product)
    (hp : p ∈ get_mock_products c) :
    p ∈ mockProducts ∧ mcondType c p = true ∧ mcondColor c p = true ∧
    mcondSize c p = true ∧ mcondMin c p = true ∧ mcondMax c p = true := by
  obtain ⟨t, col, s, mn, mx⟩ := c
  cases t <;> cases col <;> cases s <;> cases mn <;> cases mx <;>
    simp only [get_mock_products, mcondType, mcondColor, mcondSize, mcondMin,
      mcondMax] at hp ⊢ <;>
    first
      | (split_ifs at hp ⊢ <;> simp_all [List.mem_filter])
      | simp_all [List.mem_filter]

/-! ### Conversion commutes with the filter conditions -/

theorem attrVal_convertItem (it : Item) (k : String) :
    attrVal (convertItem it) k = (attrVal it k).map convertValue := by
  induction it with
  | nil => rfl
  | cons kv tl ih =>
    rcases kv with ⟨a, v⟩
    by_cases h : a = k
    · simp [attrVal, convertItem, List.find?_cons, h]
    · simp only [attrVal, convertItem, List.find?_cons] at ih ⊢
      simp [h] at ih ⊢
      exact ih

theorem dvalNum_convertValue (d : DVal) : dvalNum (convertValue d) = dvalNum d := by
  cases d <;> rfl

theorem attrEq_str_convertItem (it : Item) (k t : String) :
    attrEq (convertItem it) k (.str t) = attrEq it k (.str t) := by
  simp only [attrEq, attrVal_convertItem]
  cases h : attrVal it k with
  | none => rfl
  | some d => cases d <;> simp [convertValue]

theorem attrContains_convertItem (it : Item) (k : String) (v : ℚ) :
    attrContains (convertItem it) k v = attrContains it k v := by
  simp only [attrContains, attrVal_convertItem]
  cases h : attrVal it k with
  | none => rfl
  | some d => cases d <;> simp [convertValue]

theorem attrNumGe_convertItem (it : Item) (k : String) (v : ℚ) :
    attrNumGe (convertItem it) k v = attrNumGe it k v := by
  simp only [attrNumGe, attrVal_convertItem]
  cases h : attrVal it k with
  | none => rfl
  | some d => simp [Option.bind, dvalNum_convertValue]

theorem attrNumLe_convertItem (it : Item) (k : String) (v : ℚ) :
    attrNumLe (convertItem it) k v = attrNumLe it k v := by
  simp only [attrNumLe, attrVal_convertItem]
  cases h : attrVal it k with
  | none => rfl
  | some d => simp [Option.bind, dvalNum_convertValue]

theorem mem_get_products_by_filters {pages : List (List Item)} {c : Criteria}
    {p : Item} :
    p ∈ get_products_by_filters pages c ↔
      ∃ it, it ∈ scanPages pages ∧
        applyFE (buildFilterExpression c) it = true ∧ convertItem it = p := by
  rw [get_products_by_filters, convert_decimals, scanLoop_eq_filter_join,
    scanPages_eq_join]
  simp only [List.mem_map, List.mem_filter, List.mem_flatten, and_assoc]

/-! ### C1 — returned products versus the supplied predicates -/

/-- C1 as stated is false: a supplied-but-falsy criterion is dropped, so a
returned product need not satisfy it.  Concretely, filtering the mock
dataset with the supplied size `0.0` returns `mock-001` (indeed the whole
dataset), whose sizes list does not contain `0`. -/
theorem C1_counterexample :
    mock001 ∈ get_mock_products { size := some 0 } ∧
    ¬ (0 : ℚ) ∈ mock001.sizes := by
  constructor
  · have h : get_mock_products { size := some 0 } = mockProducts := rfl
    rw [h]
    exact List.mem_cons_self _ _
  · decide

/-- C1 amended: every product returned by `get_products_by_filters` (live
path, against any paged store) and by its mock counterpart satisfies every
supplied predicate whose value is actually applied — type equality, color
equality and size membership for non-falsy values (non-empty string,
non-zero size), and the inclusive price bounds whenever supplied; criteria
that are absent — or supplied but falsy, for type/color/size — impose no
constraint, and with all criteria absent every product of the dataset is
returned. -/
theorem C1_filters_sound (pages : List (List Item)) (c : Criteria) (p : Item)
    (hp : p ∈ get_products_by_filters pages c) (P : Product)
    (hP : P ∈ get_mock_products c) :
    (∀ t, c.type = some t → t ≠ "" → attrEq p "type" (DVal.str t) = true) ∧
    (∀ col, c.color = some col → col ≠ "" → attrEq p "color" (DVal.str col) = true) ∧
    (∀ s, c.size = some s → s ≠ 0 → attrContains p "sizes" s = true) ∧
    (∀ m, c.price_min = some m → attrNumGe p "price" m = true) ∧
    (∀ m, c.price_max = some m → attrNumLe p "price" m = true) ∧
    (∀ t, c.type = some t → t ≠ "" → P.type = t) ∧
    (∀ col, c.color = some col → col ≠ "" → P.color = col) ∧
    (∀ s, c.size = some s → s ≠ 0 → s ∈ P.sizes) ∧
    (∀ m, c.price_min = some m → m ≤ P.price) ∧
    (∀ m, c.price_max = some m → P.price ≤ m) ∧
    get_products_by_filters pages {} = convert_decimals (scanPages pages) ∧
    get_mock_products {} = mockProducts := by
  obtain ⟨it, hit, hpred, hconv⟩ := mem_get_products_by_filters.mp hp
  obtain ⟨h1, h2, h3, h4, h5⟩ := buildFilter_sound c it hpred
  obtain ⟨-, m1, m2, m3, m4, m5⟩ := mock_filter_sound c P hP
  subst hconv
  refine ⟨?_, ?_, ?_, ?_, ?_, ?_, ?_, ?_, ?_, ?_, ?_, rfl⟩
  · intro t ht htne
    rw [attrEq_str_convertItem]
    simpa [condType, ht, htne] using h1
  · intro col hc hcne
    rw [attrEq_str_convertItem]
    simpa [condColor, hc, hcne] using h2
  · intro sz hs hsne
    rw [attrContains_convertItem]
    simpa [condSize, hs, hsne] using h3
  · intro m hm
    rw [attrNumGe_convertItem]
    simpa [condMin, hm] using h4
  · intro m hm
    rw [attrNumLe_convertItem]
    simpa [condMax, hm] using h5
  · intro t ht htne
    simpa [mcondType, ht, htne] using m1
  · intro col hc hcne
    simpa [mcondColor, hc, hcne] using m2
  · intro sz hs hsne
    simpa [mcondSize, hs, hsne] using m3
  · intro m hm
    simpa [mcondMin, hm] using m4
  · intro m hm
    simpa [mcondMax, hm] using m5
  · rw [get_products_by_filters,
      show applyFE (buildFilterExpression {}) = (fun _ => true) from rfl,
      scanLoop_true]

/-- Witness for C1's amended statement: a one-item store and the mock
dataset, filtered on `type = "running"`. -/
theorem C1_filters_sound_witness :
    convertItem itemRun ∈
      get_products_by_filters [[itemRun]] { type := some "running" } ∧
    mock001 ∈ get_mock_products { type := some "running" } ∧
    attrEq (convertItem itemRun) "type" (DVal.str "running") = true := by
  refine ⟨by decide, by decide, ?_⟩
  exact (C1_filters_sound [[itemRun]] { type := some "running" }
      (convertItem itemRun) (by decide) mock001 (by decide)).1
    "running" rfl (by decide)

/-! ### C10 — falsy criteria versus the `is not None` price bounds -/

/-- C10: a supplied criterion that is falsy but not `None` — `size = 0.0`,
`type = ""`, `color = ""` — is treated by `get_products_by_filters`, live
and mock, exactly as if absent, while `price_min = 0.0` and
`price_max = 0.0` are applied as real bounds: the zero upper bound filters
the whole mock dataset away, and a zero lower bound builds a filter
expression that an item without a numeric price fails. -/
theorem C10_falsy_criteria (t col : Option String) (sz mn mx : Option ℚ)
    (pages : List (List Item)) :
    (get_products_by_filters pages
        { type := some "", color := col, size := sz, price_min := mn, price_max := mx } =
      get_products_by_filters pages
        { type := none, color := col, size := sz, price_min := mn, price_max := mx }) ∧
    (get_products_by_filters pages
        { type := t, color := some "", size := sz, price_min := mn, price_max := mx } =
      get_products_by_filters pages
        { type := t, color := none, size := sz, price_min := mn, price_max := mx }) ∧
    (get_products_by_filters pages
        { type := t, color := col, size := some 0, price_min := mn, price_max := mx } =
      get_products_by_filters pages
        { type := t, color := col, size := none, price_min := mn, price_max := mx }) ∧
    (get_mock_products
        { type := some "", color := col, size := sz, price_min := mn, price_max := mx } =
      get_mock_products
        { type := none, color := col, size := sz, price_min := mn, price_max := mx }) ∧
    (get_mock_products
        { type := t, color := some "", size := sz, price_min := mn, price_max := mx } =
      get_mock_products
        { type := t, color := none, size := sz, price_min := mn, price_max := mx }) ∧
    (get_mock_products
        { type := t, color := col, size := some 0, price_min := mn, price_max := mx } =
      get_mock_products
        { type := t, color := col, size := none, price_min := mn, price_max := mx }) ∧
    get_mock_products { price_max := some 0 } = [] ∧
    (buildFilterExpression { price_min := some 0 }).isSome = true ∧
    (buildFilterExpression { price_max := some 0 }).isSome = true ∧
    applyFE (buildFilterExpression { price_min := some 0 }) [] = false :=
  ⟨rfl, rfl, rfl, rfl, rfl, rfl, by decide, rfl, rfl, rfl⟩

/-! ### C2 — what the numeric normalizer actually removes -/

/-- Whether a value is, at top level, an arbitrary-precision `Decimal`. -/
def isTopDecimal : DVal → Bool
  | .decimal _ => true
  | _ => false

mutual
/-- Whether a value contains a `Decimal` anywhere, nested lists included. -/
def containsDecimal : DVal → Bool
  | .decimal _ => true
  | .list l => containsDecimalList l
  | _ => false

/-- `containsDecimal` over a list of values. -/
def containsDecimalList : List DVal → Bool
  | [] => false
  | d :: tl => containsDecimal d || containsDecimalList tl
end

/-- C2 as stated is false: `_convert_decimals` converts only top-level
`Decimal` fields — it does not recurse into list-valued fields — so a
record whose `sizes` list nests `Decimal` values (as every DynamoDB record
with a numeric list does) is returned by `get_all_products` still
containing `Decimal`s. -/
theorem C2_counterexample :
    List.any (get_all_products [[nestedItem]])
      (fun it => List.any it (fun kv => containsDecimal kv.2)) = true := by
  decide

theorem convertItem_no_top_decimal (it : Item) :
    ∀ k v, (k, v) ∈ convertItem it → isTopDecimal v = false := by
  intro k v hv
  rw [convertItem] at hv
  obtain ⟨⟨k0, v0⟩, _, heq⟩ := List.mem_map.mp hv
  obtain ⟨-, rfl⟩ := Prod.mk.injEq .. ▸ heq
  cases v0 <;> rfl

/-- C2 amended: every record returned by `get_all_products`,
`get_products_by_filters` and `get_featured_products` passes through
`_convert_decimals`, which guarantees that no *top-level* field value is a
`Decimal`; values nested inside list-valued fields such as `sizes` are not
converted. -/
theorem C2_top_level_normalized (pages : List (List Item)) (c : Criteria)
    (it : Item) (k : String) (v : DVal)
    (hit : it ∈ get_all_products pages ∨ it ∈ get_products_by_filters pages c ∨
      it ∈ get_featured_products pages)
    (hkv : (k, v) ∈ it) : isTopDecimal v = false := by
  rcases hit with h | h | h
  · obtain ⟨it0, -, rfl⟩ := List.mem_map.mp h
    exact convertItem_no_top_decimal it0 k v hkv
  · obtain ⟨it0, -, rfl⟩ := List.mem_map.mp h
    exact convertItem_no_top_decimal it0 k v hkv
  · obtain ⟨it0, -, rfl⟩ := List.mem_map.mp h
    exact convertItem_no_top_decimal it0 k v hkv

/-- Witness for C2's amended statement, on the nested-decimal fixture. -/
theorem C2_top_level_normalized_witness :
    convertItem nestedItem ∈ get_all_products [[nestedItem]] ∧
    ("shoe_id", DVal.str "mock-1") ∈ convertItem nestedItem ∧
    isTopDecimal (DVal.str "mock-1") = false := by
  refine ⟨by decide, by decide, ?_⟩
  exact C2_top_level_normalized [[nestedItem]] {} (convertItem nestedItem)
    "shoe_id" (DVal.str "mock-1") (Or.inl (by decide)) (by decide)

/-! ### C7 — categories: deduplicated, sorted, from the dataset -/

theorem allStrs_mem (l : List DVal) :
    ∀ ts : List String, allStrs l = some ts →
      ∀ s, s ∈ ts ↔ DVal.str s ∈ l := by
  induction l with
  | nil =>
    intro ts h s
    simp only [allStrs, Option.some.injEq] at h
    subst h
    simp
  | cons d tl ih =>
    intro ts h s
    cases d <;> simp only [allStrs, Option.map_eq_some', reduceCtorEq] at h
    case str s' =>
      obtain ⟨ts', hts', rfl⟩ := h
      simp [List.mem_cons, ih ts' hts' s]

theorem sortedDedup_nodup (l : List String) : (sortedDedup l).Nodup :=
  ((List.perm_insertionSort _ l.dedup).nodup_iff).mpr (List.nodup_dedup l)

theorem sortedDedup_sorted (l : List String) :
    List.Sorted (· ≤ ·) (sortedDedup l) :=
  List.sorted_insertionSort _ _

theorem mem_sortedDedup (l : List String) (s : String) :
    s ∈ sortedDedup l ↔ s ∈ l := by
  rw [sortedDedup, (List.perm_insertionSort _ l.dedup).mem_iff, List.mem_dedup]

theorem get_categories_eq {pages : List (List Item)}
    {cats : List String × List String} (h : get_categories pages = some cats) :
    ∃ ts cs,
      allStrs ((scanPages pages).filterMap (fun it => attrVal it "type")) = some ts ∧
      allStrs ((scanPages pages).filterMap (fun it => attrVal it "color")) = some cs ∧
      cats = (sortedDedup ts, sortedDedup cs) := by
  simp only [get_categories] at h
  cases hA : allStrs ((scanPages pages).filterMap (fun it => attrVal it "type")) with
  | none => rw [hA] at h; simp at h
  | some ts =>
    cases hB : allStrs ((scanPages pages).filterMap (fun it => attrVal it "color")) with
    | none => rw [hA, hB] at h; simp at h
    | some cs =>
      rw [hA, hB] at h
      exact ⟨ts, cs, rfl, rfl, (Option.some.inj h).symm⟩

/-- C7 as stated is false for the mock catalog provider: its
`get_categories` answers a fixed hardcoded pair of lists; the types list
contains `"athletic"`, which occurs in no mock product, and is not sorted
ascending (`"running"` precedes `"casual"`). -/
theorem C7_counterexample :
    ("athletic" ∈ get_categories_mock.1 ∧
      ∀ p ∈ mockProducts, p.type ≠ "athletic") ∧
    ¬ List.Sorted (· ≤ ·) get_categories_mock.1 := by
  refine ⟨⟨by decide, by decide⟩, ?_⟩
  intro hs
  rw [show get_categories_mock.1 =
    ["running", "casual", "formal", "athletic", "boots"] from rfl] at hs
  have h1 : ("running" : String) ≤ "casual" :=
    (List.sorted_cons.mp hs).1 "casual" (by simp)
  have h2 : ("casual" : String) < "running" := by
    rw [String.lt_iff_toList_lt]
    decide
  exact absurd h1 (not_le.mpr h2)

/-- C7 amended: the live `get_categories`, whenever it returns, yields the
deduplicated, ascending-sorted lists of exactly the `type` and `color`
values occurring in the dataset; the mock provider instead answers a fixed
hardcoded pair of lists, so the two are not interchangeable on this
operation. -/
theorem C7_categories (pages : List (List Item))
    (cats : List String × List String) (h : get_categories pages = some cats) :
    cats.1.Nodup ∧ cats.2.Nodup ∧
    List.Sorted (· ≤ ·) cats.1 ∧ List.Sorted (· ≤ ·) cats.2 ∧
    (∀ s, s ∈ cats.1 ↔
      ∃ it ∈ scanPages pages, attrVal it "type" = some (DVal.str s)) ∧
    (∀ s, s ∈ cats.2 ↔
      ∃ it ∈ scanPages pages, attrVal it "color" = some (DVal.str s)) ∧
    get_categories_mock =
      (["running", "casual", "formal", "athletic", "boots"],
       ["red", "blue", "black", "white", "brown"]) := by
  obtain ⟨ts, cs, hA, hB, rfl⟩ := get_categories_eq h
  refine ⟨sortedDedup_nodup ts, sortedDedup_nodup cs,
    sortedDedup_sorted ts, sortedDedup_sorted cs, ?_, ?_, rfl⟩
  · intro s
    rw [show (sortedDedup ts, sortedDedup cs).1 = sortedDedup ts from rfl,
      mem_sortedDedup, allStrs_mem _ ts hA s, List.mem_filterMap]
  · intro s
    rw [show (sortedDedup ts, sortedDedup cs).2 = sortedDedup cs from rfl,
      mem_sortedDedup, allStrs_mem _ cs hB s, List.mem_filterMap]

/-- A two-item, one-item-per-page store used by the categories witness. -/
def catItem : Item := [("type", DVal.str "casual"), ("color", DVal.str "red")]

/-- The paged store of the categories witness. -/
def catPages : List (List Item) := [[itemRun], [catItem]]

/-- The value `get_categories` answers on `catPages`. -/
def catResult : List String × List String :=
  (sortedDedup ["running", "casual"], sortedDedup ["red"])

/-- Witness for C7's amended statement. -/
theorem C7_categories_witness :
    get_categories catPages = some catResult ∧ catResult.1.Nodup :=
  ⟨rfl, (C7_categories catPages catResult rfl).1⟩

end Shop
